import Mathlib

/-!
Verification development for the PropertyTek workflow orchestration engine.

The definitions below are a shallow embedding of the Python source:

* `merge` — the per-key, right-biased state update applied between nodes
  (modelled from the spec; the `WorkflowState` TypedDict in
  `src/workflows/state.py` declares no per-field reducers, so every key a
  node returns overwrites the previous value wholesale).
* `WState`, the routing functions and the `reflect` node — from
  `src/workflows/graph.py` and `src/workflows/nodes/reflection.py`.
* `searchNode` — the state updates performed by
  `PropertySearchNode.search_properties` in
  `src/workflows/nodes/property_search.py`, with the external
  criteria-extraction and catalog-search collaborators abstracted into a
  `SearchOutcome` argument.
* `error_handler` / `track_node_execution` — the exception behaviour of the
  decorators in `src/workflows/nodes/base.py` and
  `src/visualization/node_wrapper.py`, with a node body represented as an
  `Except` value (`Except.error` = the body raised).
* `process_response` and friends — `ResponseGeneratorNode` in
  `src/workflows/nodes/response_generator.py`.
* booking-flow definitions — `BookingFlowManager` in
  `src/workflows/booking_flow.py`.
* `ControlFields` / `responseMessageOut` — the final-state assembly of
  `chat_endpoint` in `src/chatbot/langgraph_api.py`.
-/

namespace PropertyTek

/-- Modelled from the spec: the per-key merge the execution driver applies
between nodes. `WorkflowState` is a plain TypedDict with no per-field
reducers, so the driver overwrites every key present in a node's returned
delta with the delta's value (including explicit null/empty values) and
leaves absent keys untouched. A state is a total map from keys to values, a
delta is the list of key/value pairs the node's returned dict contains. -/
def merge {α : Type} (s : String → α) (d : List (String × α)) : String → α :=
  fun k =>
    match d.lookup k with
    | some v => v
    | none => s k

/-- Fallback context dict; only the `type` key is inspected by routers and
by the reflect node, so the kind-specific `details` payload is elided. -/
structure FallbackContext where
  ftype : String
  deriving DecidableEq

/-- Run-scoped configuration, from `src/workflows/configuration.py`.
Defaults are the Pydantic field defaults. -/
structure Configuration where
  intent_model : String := "gpt-4o-mini"
  response_model : String := "gpt-4o-mini"
  enable_sms : Bool := true
  slot_duration_minutes : Nat := 60
  max_research_loops : Nat := 1
  parallel_fan_out : Nat := 1
  recursion_limit : Nat := 10
  max_search_iterations : Nat := 3
  deriving DecidableEq

/-- The workflow state dict, restricted to the keys the routing functions,
the reflect node and the search node read or write. An `Option` field with
value `none` models the key being absent (or set to Python `None`, which the
readers below treat the same way). The keys `max_research_loops` and
`max_search_iterations` are looked up by the routers with defaults 1 and 3,
but no node and no caller ever writes them into the state dict, so the
lookups always yield the defaults; the routers below use those constants. -/
structure WState where
  user_query : String := ""
  intent : Option String := none
  properties : List Nat := []
  search_filters : List (String × String) := []
  fallback_context : Option FallbackContext := none
  reflection_notes : Option String := none
  needs_more_research : Option Bool := none
  next_step : Option String := none
  reflection_loops : Option Nat := none
  search_iterations : Option Nat := none
  user_name : Option String := none
  user_email : Option String := none
  user_phone : Option String := none
  user_pets : Option String := none
  calendar_event_id : Option String := none
  deriving DecidableEq

/-- Python truthiness of an optional string field (`state.get(k)` used in a
condition): truthy iff the key holds a non-empty string. -/
def truthy (o : Option String) : Bool :=
  match o with
  | some v => v != ""
  | none => false

/-- The `type` key of `state.get("fallback_context", {})`; a missing context
or missing key yields Python `None`, modelled as `""` (only ever compared
against non-empty literals). -/
def fallbackType (s : WState) : String :=
  match s.fallback_context with
  | some f => f.ftype
  | none => ""

/-- Router from `analyze_intent` (graph.py, route_from_intent): intent-keyed
map with default `generate_response`. `state.get("intent", "general_info")`
with a missing key falls through to the default. -/
def route_from_intent (s : WState) : String :=
  let i := s.intent.getD "general_info"
  if i = "property_search" then "search_properties"
  else if i = "schedule_tour" then "get_available_slots"
  else if i = "confirm_booking" then "create_calendar_event"
  else "generate_response"

/-- The declared valid targets of route_next_step (graph.py). -/
def validRoutes : List String :=
  ["search_properties", "get_available_slots", "collect_user_info",
   "create_calendar_event", "send_sms_confirmation", "generate_response"]

/-- Router route_next_step (graph.py): follows `next_step` when it is a
declared route, else `generate_response`. A missing key defaults to
`generate_response` (itself a valid route). -/
def route_next_step (s : WState) : String :=
  match s.next_step with
  | some ns => if ns ∈ validRoutes then ns else "generate_response"
  | none => "generate_response"

/-- Router after `search_properties` (graph.py, route_after_search).
`state.get("max_search_iterations", 3)` is always 3 because nothing ever
writes that key. -/
def route_after_search (s : WState) : String :=
  if fallbackType s = "need_criteria" then "generate_response"
  else if s.search_iterations.getD 0 ≥ 3 then "generate_response"
  else if s.properties ≠ [] then "generate_response"
  else "reflect"

/-- Router after `get_available_slots` (graph.py, route_after_slots). -/
def route_after_slots (_ : WState) : String :=
  "collect_user_info"

/-- Router after `collect_user_info` (graph.py, route_after_user_info). -/
def route_after_user_info (s : WState) : String :=
  if truthy s.user_name && truthy s.user_email && truthy s.user_phone &&
     truthy s.user_pets then "create_calendar_event"
  else "generate_response"

/-- Router after `create_calendar_event` (graph.py, route_after_calendar). -/
def route_after_calendar (s : WState) : String :=
  if truthy s.calendar_event_id then "send_sms_confirmation"
  else "generate_response"

/-- Router after `reflect` (graph.py, route_after_reflect).
`state.get("max_research_loops", 1)` is always 1 because nothing ever writes
that key into the state dict (the configured ceiling is read from the run
config by the reflect node, not from the state). -/
def route_after_reflect (s : WState) : String :=
  if s.reflection_loops.getD 0 ≥ 1 then "generate_response"
  else
    match s.next_step with
    | some ns =>
        if ns = "search_properties" ∨ ns = "generate_response" then ns
        else "generate_response"
    | none => "generate_response"

/-- Router after `send_sms_confirmation` (graph.py line 180): the constant
lambda. -/
def route_after_sms (_ : WState) : String :=
  "generate_response"

/-- The delta dict returned by `ReflectionNode.reflect`; `reflection_loops`
is `none` when the returned dict does not contain that key. -/
structure ReflectDelta where
  reflection_notes : String
  needs_more_research : Bool
  reflection_loops : Option Nat
  next_step : String
  deriving DecidableEq

/-- `getattr(config, "max_research_loops", 1) if config else 1`. -/
def config_max_research_loops (cfg : Option Configuration) : Nat :=
  match cfg with
  | some c => c.max_research_loops
  | none => 1

/-- `ReflectionNode.reflect` (reflection.py lines 18-54): with a
`need_criteria` fallback it finalizes; otherwise, when there are no
properties and the loop counter is below the configured ceiling, it
increments the counter and chooses `search_properties`; otherwise it
finalizes. -/
def reflect (s : WState) (cfg : Option Configuration) : ReflectDelta :=
  if fallbackType s = "need_criteria" then
    { reflection_notes := "User needs to provide more specific search criteria."
      needs_more_research := false
      reflection_loops := none
      next_step := "generate_response" }
  else
    let allowed := config_max_research_loops cfg
    let cur := s.reflection_loops.getD 0
    if s.properties.length = 0 ∧ cur < allowed then
      { reflection_notes := "Insufficient results. Try refining search."
        needs_more_research := true
        reflection_loops := some (cur + 1)
        next_step := "search_properties" }
    else
      { reflection_notes := "Results sufficient or loop budget exhausted. Proceed to finalize."
        needs_more_research := false
        reflection_loops := none
        next_step := "generate_response" }

/-- The driver's merge of a reflect delta into the state: every key present
in the returned dict overwrites the state's value; `reflection_loops` is
only overwritten when the delta contains it. -/
def apply_reflect_delta (s : WState) (d : ReflectDelta) : WState :=
  { s with
    reflection_notes := some d.reflection_notes
    needs_more_research := some d.needs_more_research
    reflection_loops :=
      match d.reflection_loops with
      | some n => some n
      | none => s.reflection_loops
    next_step := some d.next_step }

/-- Which branch of `PropertySearchNode.search_properties` executes, with
the external collaborators (criteria extraction, keyword heuristics, the
catalog search) abstracted: `searched c res` is the branch that actually
calls `search_with_criteria` with merged criteria `c` and gets back the
(formatted, cleaned) result list `res`. -/
inductive SearchOutcome where
  | needCriteria
  | nonProperty (criteria : List (String × String))
  | texasRedirect (criteria : List (String × String))
  | askPriority (criteria : List (String × String))
  | searched (criteria : List (String × String)) (results : List Nat)
  deriving DecidableEq

/-- `PropertySearchNode.search_properties` (property_search.py lines 18-187):
every branch calls `state.update({...})` in place and returns the whole
state object. Only `properties`, `search_filters` and `fallback_context`
are ever written; in particular no branch touches `search_iterations` or
`reflection_loops`. The `searched` branch sets a `no_properties` fallback
when the cleaned result list is empty (the special no-exact-match
suggestion objects are elided). -/
def searchNode (s : WState) (o : SearchOutcome) : WState :=
  match o with
  | .needCriteria =>
      { s with properties := [], search_filters := [],
               fallback_context := some { ftype := "need_criteria" } }
  | .nonProperty c =>
      { s with properties := [], search_filters := c,
               fallback_context := some { ftype := "general_failure" } }
  | .texasRedirect c =>
      { s with properties := [], search_filters := c,
               fallback_context := some { ftype := "no_properties" } }
  | .askPriority c =>
      { s with properties := [], search_filters := c,
               fallback_context := some { ftype := "need_criteria" } }
  | .searched c res =>
      if res = [] then
        { s with properties := [], search_filters := c,
                 fallback_context := some { ftype := "no_properties" } }
      else
        { s with properties := res, search_filters := c }

/-- Position in the search/reflect cycle of the graph. -/
inductive CycleNode where
  | searchN
  | reflectN
  | genN
  deriving DecidableEq

/-- Fuel-indexed execution of the search/reflect cycle, counting how many
times the search node runs. Each search invocation `k` gets its outcome
from the environment `o`; after a node runs, its delta is merged and the
corresponding router picks the next node, exactly as the compiled graph
does. `genN` is the terminal `generate_response` node. -/
def searchCycleAttempts (cfg : Option Configuration) (o : Nat → SearchOutcome) :
    Nat → Nat → WState → CycleNode → Nat
  | 0, _, _, _ => 0
  | fuel + 1, k, s, .searchN =>
      let s1 := searchNode s (o k)
      1 + searchCycleAttempts cfg o fuel (k + 1) s1
            (if route_after_search s1 = "reflect" then .reflectN else .genN)
  | fuel + 1, k, s, .reflectN =>
      let s1 := apply_reflect_delta s (reflect s cfg)
      searchCycleAttempts cfg o fuel k s1
        (if route_after_reflect s1 = "search_properties" then .searchN else .genN)
  | _ + 1, _, _, .genN => 0

/-- The state keys occurring at runtime: the 31 fields declared by the
`WorkflowState` TypedDict (state.py lines 9-61) plus the 9 extra keys the
chat endpoint puts into its initial state dict (langgraph_api.py lines
101-141) that the TypedDict does not declare. -/
inductive Field where
  | user_query | user_id | conversation_history | messages
  | intent | entities | confidence
  | properties | search_filters | search_query | queries
  | reflection_notes | needs_more_research | fallback_context
  | available_slots | selected_slot | appointment_details
  | user_name | user_email | user_phone | user_pets
  | calendar_event_id | sms_sent | sms_result
  | response_message | suggested_actions
  | error
  | next_step | workflow_complete
  | reflection_loops | search_iterations
  | action_type | property_id | user_info | current_step
  | requires_user_info | property_details | next_field
  | missing_fields | info_prompt
  deriving DecidableEq

/-- The fields declared by the `WorkflowState` TypedDict (state.py). -/
def stateContainerFields : List Field :=
  [.user_query, .user_id, .conversation_history, .messages,
   .intent, .entities, .confidence,
   .properties, .search_filters, .search_query, .queries,
   .reflection_notes, .needs_more_research, .fallback_context,
   .available_slots, .selected_slot, .appointment_details,
   .user_name, .user_email, .user_phone, .user_pets,
   .calendar_event_id, .sms_sent, .sms_result,
   .response_message, .suggested_actions,
   .error,
   .next_step, .workflow_complete,
   .reflection_loops, .search_iterations]

/-- The keys of the endpoint's initial state dict (langgraph_api.py lines
101-141); note it omits `fallback_context` and `search_iterations` and adds
nine keys not declared by the TypedDict. -/
def initialStateKeys : List Field :=
  [.user_query, .user_id, .conversation_history, .messages,
   .action_type, .property_id, .selected_slot, .user_info,
   .intent, .entities, .confidence,
   .properties, .search_filters, .search_query, .queries,
   .reflection_notes, .needs_more_research, .reflection_loops,
   .available_slots, .appointment_details,
   .user_name, .user_email, .user_phone, .user_pets,
   .calendar_event_id, .sms_sent, .sms_result,
   .response_message, .suggested_actions,
   .current_step, .requires_user_info, .property_details,
   .error, .next_step, .workflow_complete,
   .next_field, .missing_fields, .info_prompt]

/-- Every element of `a` occurs in `b`. -/
def subsetOf (a b : List Field) : Bool :=
  a.all fun f => f ∈ b

/-- `a` is a strict subset of `b`. -/
def strictSubsetOf (a b : List Field) : Bool :=
  subsetOf a b && !subsetOf b a

/-- Keys of the object `search_properties` returns on its need-criteria
branch when invoked on the endpoint's initial state: the branch mutates the
state dict in place (`state.update`, property_search.py lines 48-59) and
returns the whole state object (line 60), so the returned keys are the
initial state's keys plus the newly added `fallback_context`. -/
def searchNeedCriteriaReturnKeys : List Field :=
  initialStateKeys ++ [Field.fallback_context]

/-- Keys of the reflect node's delta on the loop-back branch
(reflection.py lines 41-46). -/
def reflectLoopDeltaKeys : List Field :=
  [.reflection_notes, .needs_more_research, .reflection_loops, .next_step]

/-- Keys of the reflect node's delta on the finalize branches
(reflection.py lines 27-31 and 50-54). -/
def reflectFinalizeDeltaKeys : List Field :=
  [.reflection_notes, .needs_more_research, .next_step]

/-- Keys of `analyze_intent`'s delta (intent_analyzer.py line 72). -/
def analyzeIntentDeltaKeys : List Field :=
  [.intent]

/-- Keys of `analyze_intent`'s delta on the non-property branch
(intent_analyzer.py line 70). -/
def analyzeIntentNonPropertyDeltaKeys : List Field :=
  [.intent, .search_filters, .properties]

/-- Keys of `get_available_slots`'s delta (appointment_scheduler.py lines
21-34); the fallback variant adds `fallback_context`. -/
def getAvailableSlotsDeltaKeys : List Field :=
  [.available_slots]

/-- Keys of `get_available_slots`'s delta when no slots are found. -/
def getAvailableSlotsFallbackDeltaKeys : List Field :=
  [.available_slots, .fallback_context]

/-- Keys of `collect_user_info`'s delta on the missing-info branch
(user_info_collector.py lines 33-48); `user_info`, `current_step`,
`requires_user_info` and `missing_fields` are not declared by the
TypedDict. -/
def collectUserInfoDeltaKeys : List Field :=
  [.user_info, .user_name, .user_email, .user_phone, .user_pets,
   .current_step, .requires_user_info, .missing_fields, .next_step]

/-- Keys of `create_calendar_event`'s success delta
(calendar_manager.py lines 29-36). -/
def createCalendarEventDeltaKeys : List Field :=
  [.calendar_event_id, .appointment_details]

/-- Keys of `create_calendar_event`'s failure delta
(calendar_manager.py line 38). -/
def createCalendarEventErrorDeltaKeys : List Field :=
  [.error]

/-- Keys of `send_sms_confirmation`'s delta (sms_sender.py lines 32-35);
the skip branches return the empty dict. -/
def sendSmsDeltaKeys : List Field :=
  [.sms_sent, .sms_result]

/-- Keys of `generate_response`'s delta (response_generator.py lines
25-34): the processed message and actions plus `workflow_complete`. -/
def generateResponseDeltaKeys : List Field :=
  [.response_message, .suggested_actions, .workflow_complete]

/-- Keys of the delta the `error_handler` decorator returns when the node
body raised (base.py line 28). -/
def errorHandlerDeltaKeys : List Field :=
  [.error]

/-- A node delta for the exception model: the dict a node call produces. -/
def NodeDelta : Type := List (String × String)

/-- The `{"error": str(e)}` delta (base.py line 28). -/
def errorDelta (e : String) : NodeDelta :=
  [("error", e)]

/-- The `error_handler` decorator (base.py lines 20-29): the wrapped body
either returns a delta (`Except.ok`) or raises (`Except.error`); the
decorator catches any exception and returns the error delta instead. -/
def error_handler (body : Except String NodeDelta) : Except String NodeDelta :=
  match body with
  | Except.ok d => Except.ok d
  | Except.error e => Except.ok (errorDelta e)

/-- The `track_node_execution` decorator (node_wrapper.py lines 10-80): it
records telemetry around the call, and on an exception records the error
and re-raises it unchanged (line 77) — it does not convert it into a
delta. `track_workflow_execution` (base.py lines 32-67) behaves the same
way (line 64). -/
def track_node_execution (body : Except String NodeDelta) : Except String NodeDelta :=
  match body with
  | Except.ok d => Except.ok d
  | Except.error e => Except.error e

/-- Whether a node call produced a delta rather than an exception. -/
def isOkDelta : Except String NodeDelta → Bool
  | Except.ok _ => true
  | Except.error _ => false

/-- The user-facing control fields of the final state assembled by
`chat_endpoint` (langgraph_api.py). -/
structure ControlFields where
  response_message : String
  suggested_actions : List String
  workflow_complete : Bool
  deriving DecidableEq

/-- The control fields of the endpoint's initial state (langgraph_api.py
lines 129, 130, 136): empty message, empty action list, not complete. -/
def initialControlFields : ControlFields :=
  { response_message := "", suggested_actions := [], workflow_complete := false }

/-- A booking-flow handler's returned dict, restricted to the control
fields; `none` means the handler's dict does not contain the key. -/
structure BookingControlDelta where
  response_message : Option String := none
  suggested_actions : Option (List String) := none
  workflow_complete : Option Bool := none
  deriving DecidableEq

/-- `initial_state.update(booking_updates)` (langgraph_api.py line 146):
keys present in the booking delta overwrite, absent keys are untouched. -/
def applyBookingDelta (s : ControlFields) (d : BookingControlDelta) : ControlFields :=
  { response_message := d.response_message.getD s.response_message
    suggested_actions := d.suggested_actions.getD s.suggested_actions
    workflow_complete := d.workflow_complete.getD s.workflow_complete }

/-- `_handle_slot_selection` when no slot is selected (booking_flow.py
lines 139-143): the returned dict has only `response_message` and
`current_step`. -/
def slotSelectionMissingDelta : BookingControlDelta :=
  { response_message := some "Please select a time slot." }

/-- `_handle_cancel` (booking_flow.py lines 61-73), control fields only:
note it sets `workflow_complete` to `False`. -/
def cancelBookingDelta : BookingControlDelta :=
  { response_message := some "Booking canceled. You can start again when ready."
    suggested_actions := some ["search_properties", "book_schedule"]
    workflow_complete := some false }

/-- The final state synthesized on `asyncio.TimeoutError`
(langgraph_api.py lines 181-187), control fields only. -/
def timeoutFinalState : ControlFields :=
  { response_message := "I apologize, but the request is taking longer than expected. Please try again with a simpler query or contact support if the issue persists."
    suggested_actions := ["Try a simpler query", "Contact support", "Ask for help"]
    workflow_complete := true }

/-- The final state synthesized when the workflow raises
(langgraph_api.py lines 190-196), control fields only. -/
def workflowErrorFinalState : ControlFields :=
  { response_message := "I encountered an error while processing your request. Please try again or contact support."
    suggested_actions := ["Try again", "Contact support", "Ask for help"]
    workflow_complete := true }

/-- The response message sent to the caller (langgraph_api.py line 293):
the final state's message, else the booking delta's message, else the
hardcoded default — Python `or` chains on truthiness. -/
def responseMessageOut (finalMsg : String) (bookingMsg : Option String) : String :=
  if finalMsg ≠ "" then finalMsg
  else
    match bookingMsg with
    | some m => if m ≠ "" then m else "I\x27m here to help!"
    | none => "I\x27m here to help!"

/-- The required personal-info fields of the booking sub-flow. -/
inductive BField where
  | name | email | phone | pets
  deriving DecidableEq

/-- `required_fields_order` (booking_flow.py line 25). -/
def required_fields_order : List BField :=
  [.name, .email, .phone, .pets]

/-- The dict key of a required field. -/
def field_label : BField → String
  | .name => "name"
  | .email => "email"
  | .phone => "phone"
  | .pets => "pets"

/-- `field_name.title()` as used in the required-field error message. -/
def field_label_title : BField → String
  | .name => "Name"
  | .email => "Email"
  | .phone => "Phone"
  | .pets => "Pets"

/-- `_next_missing_field` (booking_flow.py lines 46-50): the first field in
the fixed order whose value is falsy (absent, `None` or empty). -/
def next_missing_field (u : BField → Option String) : Option BField :=
  required_fields_order.find? fun f => !truthy (u f)

/-- `_prompt_for_field` (booking_flow.py lines 52-59). -/
def prompt_for_field : BField → String
  | .name => "What\x27s your full name?"
  | .email => "What\x27s your email address?"
  | .phone => "What\x27s your phone number?"
  | .pets => "Do you have any pets? If yes, please specify."

/-- The apostrophe character, written via its code point. -/
def apostropheChar : Char := Char.ofNat 39

/-- Characters the phone validator strips before checking digits: the
regex class of whitespace, hyphen, parentheses, dot and plus
(booking_flow.py line 188). -/
def phoneFormattingChar (c : Char) : Bool :=
  c.isWhitespace || c = '-' || c = '(' || c = ')' || c = '.' || c = '+'

/-- A character allowed in the local part of the email regex. -/
def emailLocalChar (c : Char) : Bool :=
  c.isAlphanum || c = '.' || c = '_' || c = '%' || c = '+' || c = '-'

/-- A character allowed in the domain part of the email regex. -/
def emailDomainChar (c : Char) : Bool :=
  c.isAlphanum || c = '.' || c = '-'

/-- All ways to split `cs` as `pre ++ [sep] ++ post`. -/
def splitsOn (sep : Char) (cs : List Char) : List (List Char × List Char) :=
  (List.range cs.length).filterMap fun i =>
    if cs.get? i = some sep then some (cs.take i, cs.drop (i + 1)) else none

/-- Python `value.strip()`: the character list of `s` with leading and
trailing whitespace removed. -/
def pyStrip (s : String) : List Char :=
  ((s.toList.dropWhile Char.isWhitespace).reverse.dropWhile Char.isWhitespace).reverse

/-- The anchored email regex of `_validate_user_field`
(booking_flow.py line 180): some decomposition
`local ++ "@" ++ domain ++ "." ++ tld` with the regex's character classes,
a non-empty local and domain part and an alphabetic tld of length at least
2 (the regex alternation is modelled as existence of a decomposition; the
dollar anchor is modelled as end of string). -/
def emailMatches (cs : List Char) : Bool :=
  (splitsOn '@' cs).any fun p =>
    !p.1.isEmpty && p.1.all emailLocalChar &&
    ((splitsOn '.' p.2).any fun q =>
      !q.1.isEmpty && q.1.all emailDomainChar &&
      decide (q.2.length ≥ 2) && q.2.all Char.isAlpha)

/-- `_validate_user_field` (booking_flow.py lines 161-203): `none` means no
validation error, `some msg` is the error message. Checks run on the
stripped value, in the source's elif order. ASCII classifiers stand in for
Python's `isalpha`/`isdigit`. -/
def validate_user_field (f : BField) (v : String) : Option String :=
  if pyStrip v = [] then some (field_label_title f ++ " is required")
  else
    let w := pyStrip v
    match f with
    | .name =>
        let core := w.filter fun c => !(c = ' ' || c = '-' || c = apostropheChar)
        if w.length < 2 then some "Name must be at least 2 characters long"
        else if !(core ≠ [] && core.all Char.isAlpha) then
          some "Name can only contain letters, spaces, hyphens, and apostrophes"
        else if w.length > 100 then some "Name is too long (maximum 100 characters)"
        else none
    | .email =>
        if !emailMatches w then
          some "Please enter a valid email address (e.g., john@example.com)"
        else if w.length > 254 then some "Email address is too long"
        else none
    | .phone =>
        let clean := w.filter fun c => !phoneFormattingChar c
        if !(clean ≠ [] && clean.all Char.isDigit) then
          some "Phone number can only contain digits and formatting characters"
        else if clean.length < 10 then some "Phone number must be at least 10 digits"
        else if clean.length > 15 then some "Phone number is too long"
        else if String.mk clean = "1234567890" ∨ String.mk clean = "0000000000" ∨
                String.mk clean = "1111111111" then
          some "Please enter a valid phone number"
        else none
    | .pets =>
        if w.length > 200 then some "Pet information is too long (maximum 200 characters)"
        else none

/-- The dict `_handle_info_collection` returns, restricted to the fields
the booking sub-flow consumes; `Option`/`Bool` fields model keys the
respective branch's dict may omit (an absent key is falsy). -/
structure InfoCollectionDelta where
  current_step : String
  response_message : String
  requires_user_info : Bool
  next_field : Option BField
  info_prompt : Option String
  validation_error : Bool
  missing_fields : Option (List BField)
  booking_confirmed : Bool
  deriving DecidableEq

/-- `_handle_info_collection` (booking_flow.py lines 205-240): when the
action is `provide_info`, every field present in `user_info` is validated
in the fixed order and the first invalid one is re-prompted without
touching the collected map; otherwise the first missing field in the fixed
order is prompted; with nothing missing the flow finalizes via
`_handle_booking_confirmation` (lines 242-263, whose message references the
selected slot). -/
def handle_info_collection (provideInfo : Bool) (u : BField → Option String)
    (selected_slot : String) : InfoCollectionDelta :=
  let firstInvalid : Option BField :=
    if provideInfo then
      required_fields_order.find? fun f =>
        match u f with
        | some v => (validate_user_field f v).isSome
        | none => false
    else none
  match firstInvalid with
  | some f =>
      { current_step := "info_collection"
        response_message :=
          "Invalid " ++ field_label f ++ ": " ++
            ((u f).bind (validate_user_field f)).getD "" ++ ". Please try again:"
        requires_user_info := true
        next_field := some f
        info_prompt := some (prompt_for_field f)
        validation_error := true
        missing_fields := none
        booking_confirmed := false }
  | none =>
      match next_missing_field u with
      | some f =>
          { current_step := "info_collection"
            response_message := prompt_for_field f
            requires_user_info := true
            next_field := some f
            info_prompt := some (prompt_for_field f)
            validation_error := false
            missing_fields := some (required_fields_order.filter fun g => !truthy (u g))
            booking_confirmed := false }
      | none =>
          { current_step := "booking_complete"
            response_message :=
              "Great! Your appointment has been scheduled for " ++ selected_slot ++
                ". You\x27ll receive a confirmation SMS shortly."
            requires_user_info := false
            next_field := none
            info_prompt := none
            validation_error := false
            missing_fields := none
            booking_confirmed := true }

/-- The language-model collaborator's response dict as read by
`ResponseGeneratorNode._process_response`; `none` models an absent key. -/
structure GenResponse where
  message : Option String := none
  suggested_actions : Option (List String) := none
  deriving DecidableEq

/-- `_process_response` (response_generator.py lines 50-56): the message is
`response.get("message", default)` — the default applies only when the key
is absent — and the action list is truncated to its first three entries,
with a three-entry default when the list is absent or empty. Returns
(response_message, suggested_actions). -/
def process_response (r : GenResponse) : String × List String :=
  let msg := r.message.getD "I\x27m here to help you with your property needs."
  let actions := r.suggested_actions.getD []
  let acts :=
    if actions = [] then ["Ask about properties", "Schedule a tour", "Get help"]
    else actions.take 3
  (msg, acts)

/-- The hardcoded ultimate fallback of `_handle_response_error`
(response_generator.py lines 72-76). -/
def ultimate_fallback : String × List String :=
  ("I apologize, but I encountered an error. Please try again.",
   ["Try rephrasing your question", "Contact support", "Ask for help"])

/-- The compiled workflow's run configuration (graph.py lines 191-195 and
langgraph_api.py lines 166-170): recursion limit 10, max search iterations
3, max research loops 1 — the `Configuration` defaults. -/
def workflowRunConfig : Configuration := {}

/-- Concrete post-search state for the C1 scenario: intent-classified
property search, loop counter 0, search came back empty. -/
def c1SearchState : WState :=
  searchNode { intent := some "property_search", reflection_loops := some 0 }
    (SearchOutcome.searched [("address", "austin")] [])

/-- Concrete user-info map with a valid name and an invalid email. -/
def c9ExampleInfo : BField → Option String := fun f =>
  match f with
  | .name => some "John Smith"
  | .email => some "not-an-email"
  | _ => none

/-- Concrete user-info map supplied out of order: only the phone, which is
third in the required order, has been provided. -/
def c9OutOfOrderInfo : BField → Option String := fun f =>
  match f with
  | .phone => some "(512) 555-0184"
  | _ => none

theorem lookup_append {α β : Type} [BEq α] (l1 l2 : List (α × β)) (k : α) :
    (l1 ++ l2).lookup k = ((l1.lookup k).orElse fun _ => l2.lookup k) := by
  induction l1 with
  | nil => simp [List.lookup]
  | cons a t ih =>
      obtain ⟨x, y⟩ := a
      simp only [List.cons_append, List.lookup]
      cases h : k == x <;> simp [h, ih, Option.orElse]

/-- C2: merging a delta overwrites exactly the keys present in the delta
with the delta's values (including explicit null values, since the value
type is arbitrary), leaves absent keys unchanged, and composes so that for
each key the last delta that set it wins. -/
theorem c2_merge_last_write_wins :
    (∀ (α : Type) (s : String → α) (d : List (String × α)) (k : String) (v : α),
        d.lookup k = some v → merge s d k = v)
  ∧ (∀ (α : Type) (s : String → α) (d : List (String × α)) (k : String),
        d.lookup k = none → merge s d k = s k)
  ∧ (∀ (α : Type) (s : String → α) (d1 d2 : List (String × α)),
        merge (merge s d1) d2 = merge s (d2 ++ d1)) := by
  refine ⟨?_, ?_, ?_⟩
  · intro α s d k v h
    simp [merge, h]
  · intro α s d k h
    simp [merge, h]
  · intro α s d1 d2
    funext k
    simp only [merge, lookup_append]
    cases h : d2.lookup k <;> simp [Option.orElse]

theorem c2_merge_last_write_wins_witness :
    merge (fun _ => some 5) [("intent", (none : Option Nat))] "intent" = none
  ∧ merge (fun _ => (0 : Nat)) [("a", 1), ("b", 2)] "b" = 2
  ∧ merge (merge (fun _ => (0 : Nat)) [("a", 1), ("b", 2)]) [("a", 3)]
      = merge (fun _ => (0 : Nat)) ([("a", 3)] ++ [("a", 1), ("b", 2)]) := by
  refine ⟨?_, ?_, ?_⟩
  · exact c2_merge_last_write_wins.1 (Option Nat) (fun _ => some 5) _ "intent" none (by decide)
  · exact c2_merge_last_write_wins.1 Nat (fun _ => 0) _ "b" 2 (by decide)
  · exact c2_merge_last_write_wins.2.2 Nat (fun _ => 0) [("a", 1), ("b", 2)] [("a", 3)]

/-- C3 counterexample: the property-search node's need-criteria branch
mutates its state argument in place and returns the whole state object, so
on the endpoint's initial state the returned record's keys are all the
runtime state keys — not a strict subset of the State Container's declared
fields. -/
theorem c3_counterexample :
    strictSubsetOf searchNeedCriteriaReturnKeys stateContainerFields = false := by
  decide

/-- C3 amended: the reflect, intent-analyzer, slot, calendar, SMS and
response-generator nodes (and the error-handler wrapper) return partial
deltas whose keys are strict subsets of the declared State Container
fields; but the property-search node returns the entire mutated state
(not even a subset of the declared fields, since the runtime state carries
undeclared keys), and the user-info collector's delta also contains keys
the State Container does not declare. -/
theorem c3_partial_delta_keys :
    strictSubsetOf reflectLoopDeltaKeys stateContainerFields = true
  ∧ strictSubsetOf reflectFinalizeDeltaKeys stateContainerFields = true
  ∧ strictSubsetOf analyzeIntentDeltaKeys stateContainerFields = true
  ∧ strictSubsetOf analyzeIntentNonPropertyDeltaKeys stateContainerFields = true
  ∧ strictSubsetOf getAvailableSlotsDeltaKeys stateContainerFields = true
  ∧ strictSubsetOf getAvailableSlotsFallbackDeltaKeys stateContainerFields = true
  ∧ strictSubsetOf createCalendarEventDeltaKeys stateContainerFields = true
  ∧ strictSubsetOf createCalendarEventErrorDeltaKeys stateContainerFields = true
  ∧ strictSubsetOf sendSmsDeltaKeys stateContainerFields = true
  ∧ strictSubsetOf generateResponseDeltaKeys stateContainerFields = true
  ∧ strictSubsetOf errorHandlerDeltaKeys stateContainerFields = true
  ∧ subsetOf searchNeedCriteriaReturnKeys stateContainerFields = false
  ∧ subsetOf collectUserInfoDeltaKeys stateContainerFields = false := by
  decide

/-- C4 counterexample: the tracking wrapper around every node call does not
convert an exception into an error delta — it re-raises it unchanged. -/
theorem c4_counterexample :
    track_node_execution (Except.error "boom") = Except.error "boom"
  ∧ track_node_execution (Except.error "boom") ≠ Except.ok (errorDelta "boom") := by
  exact ⟨rfl, fun h => Except.noConfusion h⟩

/-- C4 amended: the node-level error_handler decorator converts any
exception from the node body into the `{error: description}` delta and
never lets one escape; the tracking wrapper, by contrast, propagates
exceptions unchanged, so containment comes from the per-node handler, not
from a driver-level safety net. -/
theorem c4_error_containment :
    (∀ e, error_handler (Except.error e) = Except.ok (errorDelta e))
  ∧ (∀ d, error_handler (Except.ok d) = Except.ok d)
  ∧ (∀ body, isOkDelta (error_handler body) = true)
  ∧ (∀ e, track_node_execution (Except.error e) = Except.error e) := by
  refine ⟨fun e => rfl, fun d => rfl, ?_, fun e => rfl⟩
  intro body
  cases body <;> rfl

/-- C5 counterexample: a booking sub-flow turn (select_slot with no slot
chosen) produces a final state whose suggested-actions list is empty and
whose terminal flag is false. -/
theorem c5_counterexample :
    (applyBookingDelta initialControlFields slotSelectionMissingDelta).response_message
        = "Please select a time slot."
  ∧ (applyBookingDelta initialControlFields slotSelectionMissingDelta).suggested_actions = []
  ∧ (applyBookingDelta initialControlFields slotSelectionMissingDelta).workflow_complete = false := by
  exact ⟨rfl, rfl, rfl⟩

/-- C5 amended: on the main-workflow failure paths (timeout, workflow
exception) the synthesized final state has a non-empty message, three
suggested actions and the terminal flag set; the endpoint's outgoing
message is always non-empty thanks to a final fallback; but booking
sub-flow turns can leave the suggested-actions list empty (counterexample
above) and can even reset the terminal flag to false (cancel_booking). -/
theorem c5_degraded_paths :
    timeoutFinalState.response_message ≠ ""
  ∧ timeoutFinalState.suggested_actions.length = 3
  ∧ timeoutFinalState.workflow_complete = true
  ∧ workflowErrorFinalState.response_message ≠ ""
  ∧ workflowErrorFinalState.suggested_actions.length = 3
  ∧ workflowErrorFinalState.workflow_complete = true
  ∧ (∀ fm bm, responseMessageOut fm bm ≠ "")
  ∧ (applyBookingDelta initialControlFields cancelBookingDelta).workflow_complete = false := by
  refine ⟨by decide, rfl, rfl, by decide, rfl, rfl, ?_, rfl⟩
  intro fm bm
  by_cases h : fm = ""
  · cases bm with
    | none => simp [responseMessageOut, h]
    | some m =>
        by_cases hm : m = "" <;> simp [responseMessageOut, h, hm]
  · simp [responseMessageOut, h]

/-- C7: the claim is right that a secondary search-iteration ceiling is
intended, but no code ever increments `search_iterations`: neither the
search node (any branch) nor the reflect cycle writes it, so it keeps its
initial value for the whole run and the router's ceiling check can never
fire. -/
theorem c7_search_counter_never_incremented :
    (∀ (s : WState) (o : SearchOutcome),
        (searchNode s o).search_iterations = s.search_iterations)
  ∧ (∀ (s : WState) (cfg : Option Configuration),
        (apply_reflect_delta s (reflect s cfg)).search_iterations = s.search_iterations) := by
  constructor
  · intro s o
    cases o with
    | searched c res => by_cases h : res = [] <;> simp [searchNode, h]
    | _ => rfl
  · intro s cfg
    rfl

/-- C10 counterexample: when the collaborator returns an explicitly empty
message string (key present, value ""), `_process_response` passes the
empty message through — the hardcoded default only applies when the key is
absent. -/
theorem c10_counterexample :
    (process_response { message := some "", suggested_actions := some ["See listings"] }).1
      = "" := by
  rfl

/-- C10 amended: the terminal node's delta always carries between 1 and 3
suggested actions (the collaborator's list is truncated to 3, an absent or
empty list is replaced by a 3-entry default), and the message default is
applied only when the message key is missing; the ultimate error fallback
is hardcoded and non-empty. An explicitly empty message string is kept. -/
theorem c10_response_shape :
    (∀ r : GenResponse,
        1 ≤ (process_response r).2.length ∧ (process_response r).2.length ≤ 3)
  ∧ (∀ r : GenResponse, r.message = none →
        (process_response r).1 = "I\x27m here to help you with your property needs.")
  ∧ ultimate_fallback.1 ≠ ""
  ∧ ultimate_fallback.2.length = 3 := by
  refine ⟨?_, ?_, by decide, rfl⟩
  · intro r
    unfold process_response
    cases h : r.suggested_actions with
    | none => simp
    | some l =>
        by_cases hl : l = []
        · simp [hl]
        · have hlen : 1 ≤ l.length := List.length_pos.mpr hl
          simp only [Option.getD_some, if_neg hl, List.length_take]
          exact ⟨le_min (by decide) hlen, min_le_left _ _⟩
  · intro r h
    simp [process_response, h]

theorem c10_response_shape_witness :
    (process_response { message := none, suggested_actions := some ["a", "b", "c", "d"] }).1
      = "I\x27m here to help you with your property needs." :=
  c10_response_shape.2.1 { message := none, suggested_actions := some ["a", "b", "c", "d"] } rfl

/-- C6: every routing function of the graph is total and always returns a
member of its declared admissible edge set (the target map passed to the
graph builder for that router), and the keyed routers default to the
terminal node id `generate_response` when the state matches no special
case. -/
theorem c6_router_edge_sets :
    (∀ s : WState, route_from_intent s ∈
        ["search_properties", "get_available_slots", "create_calendar_event",
         "generate_response"])
  ∧ (∀ s : WState, route_after_search s ∈ ["reflect", "generate_response"])
  ∧ (∀ s : WState, route_after_reflect s ∈ ["search_properties", "generate_response"])
  ∧ (∀ s : WState, route_after_slots s ∈ ["collect_user_info", "generate_response"])
  ∧ (∀ s : WState, route_after_user_info s ∈ ["create_calendar_event", "generate_response"])
  ∧ (∀ s : WState, route_after_calendar s ∈ ["send_sms_confirmation", "generate_response"])
  ∧ (∀ s : WState, route_after_sms s ∈ ["generate_response"])
  ∧ (∀ s : WState, route_next_step s ∈ validRoutes)
  ∧ (∀ s : WState,
        s.intent = some "property_search" ∨ s.intent = some "schedule_tour" ∨
        s.intent = some "confirm_booking" ∨ route_from_intent s = "generate_response")
  ∧ (∀ s : WState,
        (∃ ns, s.next_step = some ns ∧ ns ∈ validRoutes) ∨
        route_next_step s = "generate_response") := by
  refine ⟨?_, ?_, ?_, ?_, ?_, ?_, ?_, ?_, ?_, ?_⟩
  · intro s
    unfold route_from_intent
    dsimp only
    split_ifs <;> simp
  · intro s
    unfold route_after_search
    split_ifs <;> simp
  · intro s
    unfold route_after_reflect
    split_ifs with h
    · simp
    · cases hn : s.next_step with
      | none => simp
      | some ns =>
          dsimp only
          split_ifs with h2
          · rcases h2 with h2 | h2 <;> simp [h2]
          · simp
  · intro s
    simp [route_after_slots]
  · intro s
    unfold route_after_user_info
    split_ifs <;> simp
  · intro s
    unfold route_after_calendar
    split_ifs <;> simp
  · intro s
    simp [route_after_sms]
  · intro s
    unfold route_next_step
    cases hn : s.next_step with
    | none => simp [validRoutes]
    | some ns =>
        dsimp only
        split_ifs with h
        · exact h
        · simp [validRoutes]
  · intro s
    cases hi : s.intent with
    | none =>
        right; right; right
        simp [route_from_intent, hi]
    | some i =>
        by_cases h1 : i = "property_search"
        · subst h1; exact Or.inl rfl
        · by_cases h2 : i = "schedule_tour"
          · subst h2; exact Or.inr (Or.inl rfl)
          · by_cases h3 : i = "confirm_booking"
            · subst h3; exact Or.inr (Or.inr (Or.inl rfl))
            · right; right; right
              simp [route_from_intent, hi, h1, h2, h3]
  · intro s
    cases hn : s.next_step with
    | none => right; simp [route_next_step, hn]
    | some ns =>
        by_cases h : ns ∈ validRoutes
        · exact Or.inl ⟨ns, rfl, h⟩
        · right; simp [route_next_step, hn, h]

/-- If the merged state's next step is generate_response, the reflect
router finalizes. -/
theorem route_after_reflect_gen_next (s : WState)
    (h : s.next_step = some "generate_response") :
    route_after_reflect s = "generate_response" := by
  unfold route_after_reflect
  rw [h]
  split_ifs <;> simp

/-- If the merged state's loop counter is at least 1 (the state dict never
contains a max_research_loops key, so the router's ceiling lookup always
yields the default 1), the reflect router finalizes. -/
theorem route_after_reflect_pos_loops (s : WState)
    (h : 1 ≤ s.reflection_loops.getD 0) :
    route_after_reflect s = "generate_response" := by
  unfold route_after_reflect
  rw [if_pos h]

/-- After merging the reflect node's delta, the reflect router always
routes to generate_response: when reflect chooses to loop it has already
incremented the counter to at least 1, and on every other branch it sets
next_step to generate_response. -/
theorem reflect_route_terminal (s : WState) (cfg : Option Configuration) :
    route_after_reflect (apply_reflect_delta s (reflect s cfg)) = "generate_response" := by
  by_cases hf : fallbackType s = "need_criteria"
  · apply route_after_reflect_gen_next
    simp [apply_reflect_delta, reflect, hf]
  · by_cases hp : s.properties = [] ∧
        s.reflection_loops.getD 0 < config_max_research_loops cfg
    · apply route_after_reflect_pos_loops
      simp [apply_reflect_delta, reflect, hf, hp]
    · apply route_after_reflect_gen_next
      simp [apply_reflect_delta, reflect, hf, hp]

theorem searchCycleAttempts_gen (cfg : Option Configuration) (o : Nat → SearchOutcome)
    (fuel k : Nat) (s : WState) :
    searchCycleAttempts cfg o fuel k s CycleNode.genN = 0 := by
  cases fuel <;> rfl

theorem searchCycleAttempts_reflect (cfg : Option Configuration) (o : Nat → SearchOutcome)
    (fuel k : Nat) (s : WState) :
    searchCycleAttempts cfg o fuel k s CycleNode.reflectN = 0 := by
  cases fuel with
  | zero => rfl
  | succ n =>
      have h := reflect_route_terminal s cfg
      simp [searchCycleAttempts, h, searchCycleAttempts_gen]

theorem searchCycleAttempts_search_le_one (cfg : Option Configuration)
    (o : Nat → SearchOutcome) (fuel k : Nat) (s : WState) :
    searchCycleAttempts cfg o fuel k s CycleNode.searchN ≤ 1 := by
  cases fuel with
  | zero => exact Nat.zero_le 1
  | succ n =>
      by_cases h : route_after_search (searchNode s (o k)) = "reflect"
      · simp [searchCycleAttempts, h, searchCycleAttempts_reflect]
      · simp [searchCycleAttempts, h, searchCycleAttempts_gen]

/-- C8: the reflection loop counter never exceeds the configured ceiling
(reflect increments it only while strictly below the ceiling), reaching
the ceiling forces the reflect router to the terminal node, and a run of
the search/reflect cycle executes the search node at most
max_research_loops + 1 times for any sequence of search outcomes (so in
particular for a search branch that never finds results). -/
theorem c8_reflection_loop_guard :
    (∀ (s : WState) (cfg : Option Configuration),
        s.reflection_loops.getD 0 ≤ config_max_research_loops cfg →
        (apply_reflect_delta s (reflect s cfg)).reflection_loops.getD 0
          ≤ config_max_research_loops cfg)
  ∧ (∀ (s : WState) (cfg : Option Configuration),
        1 ≤ config_max_research_loops cfg →
        config_max_research_loops cfg ≤ s.reflection_loops.getD 0 →
        route_after_reflect s = "generate_response")
  ∧ (∀ (cfg : Option Configuration) (o : Nat → SearchOutcome) (fuel k : Nat) (s : WState),
        searchCycleAttempts cfg o fuel k s CycleNode.searchN
          ≤ config_max_research_loops cfg + 1) := by
  refine ⟨?_, ?_, ?_⟩
  · intro s cfg h
    by_cases hf : fallbackType s = "need_criteria"
    · simpa [apply_reflect_delta, reflect, hf] using h
    · by_cases hp : s.properties = [] ∧
          s.reflection_loops.getD 0 < config_max_research_loops cfg
      · have h2 := hp.2
        simp [apply_reflect_delta, reflect, hf, hp]
        omega
      · simpa [apply_reflect_delta, reflect, hf, hp] using h
  · intro s cfg h1 h2
    exact route_after_reflect_pos_loops s (le_trans h1 h2)
  · intro cfg o fuel k s
    exact le_trans (searchCycleAttempts_search_le_one cfg o fuel k s)
      (Nat.succ_le_succ (Nat.zero_le _))

theorem c8_reflection_loop_guard_witness :
    (apply_reflect_delta ({ reflection_loops := some 0 } : WState)
        (reflect ({ reflection_loops := some 0 } : WState)
          (some workflowRunConfig))).reflection_loops.getD 0
      ≤ config_max_research_loops (some workflowRunConfig)
  ∧ route_after_reflect ({ reflection_loops := some 1 } : WState) = "generate_response"
  ∧ searchCycleAttempts (some workflowRunConfig) (fun _ => SearchOutcome.searched [] [])
      10 0 ({ reflection_loops := some 0 } : WState) CycleNode.searchN
      ≤ config_max_research_loops (some workflowRunConfig) + 1 := by
  refine ⟨?_, ?_, ?_⟩
  · exact c8_reflection_loop_guard.1 { reflection_loops := some 0 }
      (some workflowRunConfig) (by decide)
  · exact c8_reflection_loop_guard.2.1 { reflection_loops := some 1 }
      (some workflowRunConfig) (by decide) (by decide)
  · exact c8_reflection_loop_guard.2.2 (some workflowRunConfig)
      (fun _ => SearchOutcome.searched [] []) 10 0 { reflection_loops := some 0 }

/-- C1 counterexample: after a first zero-result search with loop count 0
and ceiling 1, the reflect node does choose search_properties, but the
router after reflect — which reads the merged state where the counter
already equals the ceiling — does not route to search_properties, so no
second search attempt is executed. -/
theorem c1_counterexample :
    (reflect c1SearchState (some workflowRunConfig)).next_step = "search_properties"
  ∧ route_after_reflect (apply_reflect_delta c1SearchState
        (reflect c1SearchState (some workflowRunConfig))) ≠ "search_properties" := by
  refine ⟨by decide, by decide⟩

/-- C1 amended: with zero results, loop count 0 and ceiling 1, the search
router sends the run to reflect; reflect chooses search_properties and
increments the counter to 1; but the router after reflect reads the merged
state, where the counter already equals the ceiling, and forces
generate_response immediately — only one search attempt executes, and the
state reaching the terminal node carries the no-results fallback
(`no_properties`) attached by that first attempt. -/
theorem c1_reflect_router_override :
    ∀ (s0 : WState) (c : List (String × String)),
      s0.reflection_loops.getD 0 = 0 →
      s0.search_iterations.getD 0 < 3 →
      (route_after_search (searchNode s0 (SearchOutcome.searched c [])) = "reflect"
       ∧ (reflect (searchNode s0 (SearchOutcome.searched c []))
            (some workflowRunConfig)).next_step = "search_properties"
       ∧ (reflect (searchNode s0 (SearchOutcome.searched c []))
            (some workflowRunConfig)).reflection_loops = some 1
       ∧ route_after_reflect (apply_reflect_delta (searchNode s0 (SearchOutcome.searched c []))
            (reflect (searchNode s0 (SearchOutcome.searched c []))
              (some workflowRunConfig))) = "generate_response"
       ∧ fallbackType (apply_reflect_delta (searchNode s0 (SearchOutcome.searched c []))
            (reflect (searchNode s0 (SearchOutcome.searched c []))
              (some workflowRunConfig))) = "no_properties") := by
  intro s0 c h0 h3
  have hs1 : searchNode s0 (SearchOutcome.searched c []) =
      { s0 with properties := [], search_filters := c,
                fallback_context := some { ftype := "no_properties" } } := by
    simp [searchNode]
  refine ⟨?_, ?_, ?_, ?_, ?_⟩
  · rw [hs1]
    unfold route_after_search
    simp [fallbackType, h3]
  · rw [hs1]
    unfold reflect
    simp [fallbackType, config_max_research_loops, workflowRunConfig, h0]
  · rw [hs1]
    unfold reflect
    simp [fallbackType, config_max_research_loops, workflowRunConfig, h0]
  · exact reflect_route_terminal _ _
  · rw [hs1]
    unfold reflect
    simp [fallbackType, apply_reflect_delta, config_max_research_loops,
      workflowRunConfig, h0]

theorem c1_reflect_router_override_witness :
    route_after_search (searchNode ({ reflection_loops := some 0 } : WState)
        (SearchOutcome.searched [] [])) = "reflect"
  ∧ (reflect (searchNode ({ reflection_loops := some 0 } : WState)
        (SearchOutcome.searched [] [])) (some workflowRunConfig)).next_step
      = "search_properties"
  ∧ (reflect (searchNode ({ reflection_loops := some 0 } : WState)
        (SearchOutcome.searched [] [])) (some workflowRunConfig)).reflection_loops
      = some 1
  ∧ route_after_reflect (apply_reflect_delta
        (searchNode ({ reflection_loops := some 0 } : WState) (SearchOutcome.searched [] []))
        (reflect (searchNode ({ reflection_loops := some 0 } : WState)
          (SearchOutcome.searched [] [])) (some workflowRunConfig))) = "generate_response"
  ∧ fallbackType (apply_reflect_delta
        (searchNode ({ reflection_loops := some 0 } : WState) (SearchOutcome.searched [] []))
        (reflect (searchNode ({ reflection_loops := some 0 } : WState)
          (SearchOutcome.searched [] [])) (some workflowRunConfig))) = "no_properties" :=
  c1_reflect_router_override { reflection_loops := some 0 } [] rfl (by decide)

/-- C9: when every supplied field passes validation, the info-collection
step always prompts for the first missing field in the fixed order
name, email, phone, pets — independent of the order fields were supplied
in, since the handler's choice is a function of the collected map alone —
and when a supplied field fails validation (the first invalid one in the
fixed order, e.g. an invalid email with a valid or absent name), the step
re-prompts for that same field with a validation error, without advancing
to or consuming the next field in the queue. -/
theorem c9_info_collection_order :
    (∀ (u : BField → Option String) (pInfo : Bool) (slot : String),
        (∀ f v, u f = some v → validate_user_field f v = none) →
        (handle_info_collection pInfo u slot).next_field = next_missing_field u)
  ∧ (∀ (u : BField → Option String) (slot e : String),
        u BField.email = some e →
        (validate_user_field BField.email e).isSome = true →
        (∀ v, u BField.name = some v → validate_user_field BField.name v = none) →
        ((handle_info_collection true u slot).next_field = some BField.email
         ∧ (handle_info_collection true u slot).validation_error = true
         ∧ (handle_info_collection true u slot).info_prompt
             = some (prompt_for_field BField.email)
         ∧ (handle_info_collection true u slot).current_step = "info_collection")) := by
  constructor
  · intro u pInfo slot h
    have hpred : ∀ f : BField,
        (match u f with
         | some v => (validate_user_field f v).isSome
         | none => false) = false := by
      intro f
      cases hv : u f with
      | none => rfl
      | some v => simp [h f v hv]
    unfold handle_info_collection
    cases pInfo with
    | false =>
        dsimp only [if_neg, Bool.false_eq_true]
        cases hm : next_missing_field u <;> simp [hm]
    | true =>
        have hfi : required_fields_order.find?
            (fun f =>
              match u f with
              | some v => (validate_user_field f v).isSome
              | none => false) = none := by
          simp [required_fields_order, List.find?, hpred]
        simp only [if_pos, hfi]
        cases hm : next_missing_field u <;> simp [hm]
  · intro u slot e he hbad hname
    have hfi : required_fields_order.find?
        (fun f =>
          match u f with
          | some v => (validate_user_field f v).isSome
          | none => false) = some BField.email := by
      cases hv : u BField.name with
      | none => simp [required_fields_order, List.find?, hv, he, hbad]
      | some v => simp [required_fields_order, List.find?, hv, hname v hv, he, hbad]
    unfold handle_info_collection
    simp only [if_pos, hfi]
    exact ⟨trivial, trivial, trivial, trivial⟩

theorem c9_info_collection_order_witness :
    (handle_info_collection false c9OutOfOrderInfo "").next_field
        = next_missing_field c9OutOfOrderInfo
  ∧ next_missing_field c9OutOfOrderInfo = some BField.name
  ∧ (handle_info_collection true c9ExampleInfo "").next_field = some BField.email
  ∧ (handle_info_collection true c9ExampleInfo "").validation_error = true := by
  refine ⟨?_, by decide, ?_, ?_⟩
  · refine c9_info_collection_order.1 c9OutOfOrderInfo false "" ?_
    intro f v hfv
    cases f <;> simp only [c9OutOfOrderInfo] at hfv
    case phone =>
      cases hfv
      decide
    all_goals cases hfv
  · refine (c9_info_collection_order.2 c9ExampleInfo "" "not-an-email" rfl (by decide) ?_).1
    intro v hv
    simp only [c9ExampleInfo] at hv
    cases hv
    decide
  · refine (c9_info_collection_order.2 c9ExampleInfo "" "not-an-email" rfl (by decide) ?_).2.1
    intro v hv
    simp only [c9ExampleInfo] at hv
    cases hv
    decide

end PropertyTek
